import Mathlib

/-!
Shallow embedding of the `copilotcli` Go package (client.go, tools.go,
errors.go) and proofs of its specified properties.

The embedding translates the source functions into pure Lean functions:
the Go channels and goroutine-delivered session events become explicit
folds over event lists, the SDK collaborator (connect attempts, session
setup, send, abort) becomes an explicit environment record, and Go `error`
values become `Option String` / `Except String` carrying the message.
-/

set_option autoImplicit false

namespace Copilotcli

/-! ## Session events (copilot.SessionEvent)

The SDK delivers events with a type tag and optional text payload fields
(`Data.DeltaContent`, `Data.Content`, `Data.Message` are pointers in Go;
here `Option String`). -/

/-- The event type tags the client handles (`copilot.AssistantMessageDelta`,
`copilot.AssistantMessage`, `copilot.SessionIdle`, `copilot.SessionError`);
`other` stands for every tag that falls into the Go `default:` branch. -/
inductive EventType where
  | assistantMessageDelta
  | assistantMessage
  | sessionIdle
  | sessionError
  | other
deriving DecidableEq, Repr

/-- A session event as delivered to a subscribed handler. -/
structure SessionEvent where
  type : EventType
  deltaContent : Option String
  content : Option String
  message : Option String
deriving DecidableEq, Repr

/-- `StreamEvent` from client.go: a delta, the final result, or an error.
Go's `error` field is modelled as `Option String` (the message). -/
structure StreamEvent where
  deltaContent : String
  content : String
  isFinal : Bool
  error : Option String
deriving DecidableEq, Repr

/-- A delta stream event, as built by `events <- StreamEvent{DeltaContent: d}`. -/
def mkDeltaEvent (d : String) : StreamEvent :=
  { deltaContent := d, content := "", isFinal := false, error := none }

/-- A final stream event, as built by
`events <- StreamEvent{Content: fullContent, IsFinal: true}`. -/
def mkFinalEvent (c : String) : StreamEvent :=
  { deltaContent := "", content := c, isFinal := true, error := none }

/-- An error stream event, as built by
`events <- StreamEvent{Error: fmt.Errorf("copilot: %s", msg)}`. -/
def mkErrorEvent (msg : String) : StreamEvent :=
  { deltaContent := "", content := "", isFinal := false, error := some ("copilot: " ++ msg) }

/-! ## The QueryStream event handler (client.go lines 243-273)

The handler closure keeps a `fullContent` accumulator and writes
`StreamEvent`s to the `events` channel; `closed` records `close(events)`.
The channel contents are modelled as the ordered list `out`. -/

/-- State of the `QueryStream` handler closure: the `fullContent`
accumulator, the events written to the channel so far (in order), and
whether the channel has been closed. -/
structure StreamHandlerState where
  fullContent : String
  out : List StreamEvent
  closed : Bool
deriving DecidableEq, Repr

/-- One step of the handler registered by `QueryStream` via `session.On`:

* `AssistantMessageDelta` with non-nil `DeltaContent`: append to
  `fullContent` and forward a delta `StreamEvent`; with nil
  `DeltaContent`: do nothing.
* `AssistantMessage` with non-nil `Content`: overwrite `fullContent`.
* `SessionIdle`: emit the final `StreamEvent` with the accumulated
  content and close the channel.
* `SessionError`: emit an error `StreamEvent` (defaulting the message to
  "session error") and close the channel.
* anything else: ignored. -/
def queryStreamHandle (s : StreamHandlerState) (e : SessionEvent) : StreamHandlerState :=
  match e.type with
  | .assistantMessageDelta =>
    match e.deltaContent with
    | some d =>
      { s with fullContent := s.fullContent ++ d, out := s.out ++ [mkDeltaEvent d] }
    | none => s
  | .assistantMessage =>
    match e.content with
    | some c => { s with fullContent := c }
    | none => s
  | .sessionIdle =>
    { s with out := s.out ++ [mkFinalEvent s.fullContent], closed := true }
  | .sessionError =>
    { s with out := s.out ++ [mkErrorEvent (e.message.getD "session error")], closed := true }
  | .other => s

/-- The handler's initial state: empty accumulator, nothing sent, open channel. -/
def initialStreamState : StreamHandlerState :=
  { fullContent := "", out := [], closed := false }

/-- Running the `QueryStream` handler over a delivered event sequence. -/
def queryStreamRun (events : List SessionEvent) : StreamHandlerState :=
  events.foldl queryStreamHandle initialStreamState

/-- A delta session event carrying content `d`. -/
def deltaEvt (d : String) : SessionEvent :=
  { type := .assistantMessageDelta, deltaContent := some d, content := none, message := none }

/-- A full-content (`AssistantMessage`) session event carrying content `c`. -/
def fullEvt (c : String) : SessionEvent :=
  { type := .assistantMessage, deltaContent := none, content := some c, message := none }

/-- The terminal idle session event. -/
def idleEvt : SessionEvent :=
  { type := .sessionIdle, deltaContent := none, content := none, message := none }

/-- Concatenation of a list of strings, in order. -/
def concatStrings : List String → String
  | [] => ""
  | d :: ds => d ++ concatStrings ds

/-! ## Start / Stop (client.go lines 66-115)

The SDK collaborator is abstracted by two oracles: `att i` is the result
of `c.sdk.Start` on the `i`-th attempt (`none` = success, `some e` =
failure with message `e`), and `ctxDone i` says whether, during the wait
after failed attempt `i`, the caller's context completes before the
`time.After(delay)` timer fires (the two arms of the `select`). -/

/-- Cause wrapped by `ErrSidecarUnavailable`: either the last attempt's
error (`lastErr`, which is Go-`nil` when the loop body never ran) or the
context's cancellation error `ctx.Err()`. -/
inductive StartCause where
  | lastAttemptErr (e : Option String)
  | ctxCancelled
deriving DecidableEq, Repr

/-- Result of `Client.Start`. -/
inductive StartResult where
  | ok
  | alreadyConnected
  | sidecarUnavailable (cause : StartCause)
deriving DecidableEq, Repr

/-- Observable outcome of `Client.Start`: the connected flag on return,
the returned value, how many `c.sdk.Start` attempts were made, and the
list of inter-attempt delays actually slept (in order). -/
structure StartOutcome where
  connected : Bool
  result : StartResult
  attemptsMade : Nat
  sleeps : List Nat
deriving DecidableEq, Repr

/-- The retry loop of `Client.Start` (client.go lines 74-100), recursing
on the number of remaining attempts. `attempt` is the Go loop index,
`delay` the current backoff delay, `lastErr` the last attempt error.
`remaining = 0` is loop exit (returns `ErrSidecarUnavailable` wrapping
`lastErr`); inside the body, `remaining = 1` means this is the last
attempt (`attempt == retryAttempts-1`), so no sleep follows a failure. -/
def startLoop (att : Nat → Option String) (ctxDone : Nat → Bool) :
    Nat → Nat → Nat → Option String → List Nat → StartOutcome
  | 0, attempt, _, lastErr, sleeps =>
    { connected := false, result := .sidecarUnavailable (.lastAttemptErr lastErr),
      attemptsMade := attempt, sleeps := sleeps }
  | remaining + 1, attempt, delay, lastErr, sleeps =>
    match att attempt with
    | none =>
      { connected := true, result := .ok, attemptsMade := attempt + 1, sleeps := sleeps }
    | some e =>
      if remaining = 0 then
        { connected := false, result := .sidecarUnavailable (.lastAttemptErr (some e)),
          attemptsMade := attempt + 1, sleeps := sleeps }
      else if ctxDone attempt then
        { connected := false, result := .sidecarUnavailable .ctxCancelled,
          attemptsMade := attempt + 1, sleeps := sleeps }
      else
        startLoop att ctxDone remaining (attempt + 1) (delay * 2) (some e) (sleeps ++ [delay])

/-- `Client.Start`: fail with `ErrAlreadyConnected` when connected,
otherwise run the retry loop with `retryAttempts` attempts starting from
`retryDelay`. -/
def Start (connected : Bool) (retryAttempts retryDelay : Nat)
    (att : Nat → Option String) (ctxDone : Nat → Bool) : StartOutcome :=
  if connected then
    { connected := true, result := .alreadyConnected, attemptsMade := 0, sleeps := [] }
  else
    startLoop att ctxDone retryAttempts 0 retryDelay none []

/-- `Client.Stop` (client.go lines 104-115): given the connected flag and
the result of `c.sdk.Stop()` (`none` = no error), returns the new
connected flag and the returned error. When not connected it returns nil
without touching anything; otherwise it stops the SDK, unconditionally
clears the flag, and returns the SDK's error. -/
def Stop (connected : Bool) (sdkStopErr : Option String) : Bool × Option String :=
  if connected then (false, sdkStopErr) else (connected, none)

/-! ## QueryWithSession (client.go lines 144-215)

The remote collaborator is abstracted by an environment: the connected
flag, the result of `getOrCreateSession`, the result of `session.Send`,
and the winner of the `select` race between the handler's `done` channel
and `ctx.Done()` — either the full event sequence delivered before the
terminal event fired, or cancellation. -/

/-- Remote operations the client can issue during a query, recorded in
call order. -/
inductive RemoteCall where
  | createSession
  | resumeSession
  | send
  | abort
deriving DecidableEq, Repr

/-- Winner of the `select { case <-done: case <-ctx.Done(): }` race:
either the terminal event fired after the given event sequence was
delivered to the handler, or the context completed first. -/
inductive RaceOutcome where
  | terminal (events : List SessionEvent)
  | ctxCancelled
deriving DecidableEq, Repr

/-- Environment for one `QueryWithSession` call. `sessionSetup` is the
result of `getOrCreateSession` (`Except.ok` carries the session id
returned by `session.ID()`); `sendErr` the error of `session.Send`. -/
structure QueryEnv where
  connected : Bool
  sessionSetup : Except String String
  sendErr : Option String
  race : RaceOutcome
deriving Repr

/-- Result of `Client.QueryWithSession`. -/
inductive QueryOutcome where
  | ok (content sessionID : String)
  | errEmptyPrompt
  | errNotConnected
  | errSessionSetup (e : String)
  | errSending (e : String)
  | errSession (msg : String)
  | errCtxCancelled
deriving DecidableEq, Repr

/-- State of the handler closure registered by `QueryWithSession`:
`content` is the latest full content, `evtErr` the captured error. -/
structure QueryHandlerState where
  content : String
  evtErr : Option String
deriving DecidableEq, Repr

/-- One step of the handler registered by `QueryWithSession` via
`session.On` (client.go lines 168-190): `AssistantMessage` with non-nil
content overwrites `content`; `SessionError` captures
`"copilot: <message>"` (defaulting the message to "session error");
`SessionIdle` only signals completion; everything else is ignored. -/
def queryHandle (s : QueryHandlerState) (e : SessionEvent) : QueryHandlerState :=
  match e.type with
  | .assistantMessage =>
    match e.content with
    | some c => { s with content := c }
    | none => s
  | .sessionError =>
    { s with evtErr := some ("copilot: " ++ e.message.getD "session error") }
  | _ => s

/-- `Client.QueryWithSession`: empty-prompt check, connectivity check,
session setup, send, then the race between the terminal signal and the
caller's context. Returns the outcome and the remote calls issued. -/
def QueryWithSession (env : QueryEnv) (sessionID prompt : String) :
    QueryOutcome × List RemoteCall :=
  if prompt = "" then (.errEmptyPrompt, [])
  else if env.connected = false then (.errNotConnected, [])
  else
    let setupCall := if sessionID = "" then RemoteCall.createSession else RemoteCall.resumeSession
    match env.sessionSetup with
    | .error e => (.errSessionSetup e, [setupCall])
    | .ok sid =>
      match env.sendErr with
      | some e => (.errSending e, [setupCall, .send])
      | none =>
        match env.race with
        | .ctxCancelled => (.errCtxCancelled, [setupCall, .send, .abort])
        | .terminal events =>
          let st := events.foldl queryHandle { content := "", evtErr := none }
          match st.evtErr with
          | some msg => (.errSession msg, [setupCall, .send])
          | none => (.ok st.content sid, [setupCall, .send])

/-! ## QueryStream setup phase (client.go lines 219-287)

The setup phase runs the same precondition checks, creates the session,
registers `queryStreamHandle`, and sends the prompt; the events channel
contents are then determined by `queryStreamRun` over the delivered
session events. -/

/-- Environment for the setup phase of one `QueryStream` call. -/
structure StreamEnv where
  connected : Bool
  sessionSetup : Except String String
  sendErr : Option String
deriving Repr

/-- Result of the `QueryStream` setup phase: either the session id with
the channel handed to the caller, or the error returned before any event
could be produced. -/
inductive StreamSetupOutcome where
  | ok (sessionID : String)
  | errEmptyPrompt
  | errNotConnected
  | errSessionSetup (e : String)
  | errSending (e : String)
deriving DecidableEq, Repr

/-- The setup phase of `Client.QueryStream`: empty-prompt check,
connectivity check, session setup, send. Returns the outcome and the
remote calls issued. -/
def QueryStream (env : StreamEnv) (sessionID prompt : String) :
    StreamSetupOutcome × List RemoteCall :=
  if prompt = "" then (.errEmptyPrompt, [])
  else if env.connected = false then (.errNotConnected, [])
  else
    let setupCall := if sessionID = "" then RemoteCall.createSession else RemoteCall.resumeSession
    match env.sessionSetup with
    | .error e => (.errSessionSetup e, [setupCall])
    | .ok sid =>
      match env.sendErr with
      | some e => (.errSending e, [setupCall, .send])
      | none => (.ok sid, [setupCall, .send])

/-! ## Tool bridge (tools.go)

`invocation.Arguments` is `any` in Go; it is modelled by the inductive
`SDKValue` of JSON-like values, with `map` the `map[string]any` case. -/

/-- An untyped SDK value (Go `any`), as far as the bridge inspects it. -/
inductive SDKValue where
  | map (entries : List (String × SDKValue))
  | str (s : String)
  | num (n : Int)
  | bool (b : Bool)
  | null
deriving Repr

/-- `ToolParameter` from tools.go. -/
structure ToolParameter where
  name : String
  type : String
  description : String
  required : Bool
deriving DecidableEq, Repr

/-- `ToolDefinition` from tools.go; the handler takes the argument map
and returns the result text or an error message, like Go's
`func(args map[string]any) (string, error)`. -/
structure ToolDefinition where
  name : String
  description : String
  parameters : List ToolParameter
  handler : List (String × SDKValue) → Except String String

/-- The per-parameter schema entry
`{"type": p.Type, "description": p.Description}`. -/
structure ParamSchema where
  type : String
  description : String
deriving DecidableEq, Repr

/-- Go map assignment `properties[p.Name] = v`: replace the binding when
the key is present, otherwise add it. (Go map iteration order is not
observable; the model fixes insertion order.) -/
def insertReplace (m : List (String × ParamSchema)) (k : String) (v : ParamSchema) :
    List (String × ParamSchema) :=
  match m with
  | [] => [(k, v)]
  | (k0, v0) :: rest =>
    if k0 = k then (k, v) :: rest else (k0, v0) :: insertReplace rest k v

/-- The tool descriptor's `Parameters` map
`{"type": "object", "properties": ..., "required": ...}`. Go
distinguishes nil from empty maps/slices; `none` models nil, and
`some []` models the non-nil empty map/slice produced by `make`. -/
structure SDKToolParams where
  type : String
  properties : Option (List (String × ParamSchema))
  required : Option (List String)
deriving DecidableEq, Repr

/-- `copilot.ToolResult` from the SDK, as filled in by the bridge. -/
structure ToolResult where
  textResultForLLM : String
  resultType : String
  sessionLog : String
deriving DecidableEq, Repr

/-- `copilot.Tool` as built by `toSDKTool`: name, description, the
schema-like parameters map, and the wrapped handler. The handler returns
`Except.error` exactly when Go's wrapped handler returns a non-nil
transport error. -/
structure SDKTool where
  name : String
  description : String
  parameters : SDKToolParams
  handler : SDKValue → Except String ToolResult

/-- One iteration of the parameter loop in `toSDKTool` (tools.go lines
184-192), accumulating the properties map and the required-names list. -/
def toSDKToolStep (acc : List (String × ParamSchema) × List String) (p : ToolParameter) :
    List (String × ParamSchema) × List String :=
  (insertReplace acc.1 p.name { type := p.type, description := p.description },
   if p.required then acc.2 ++ [p.name] else acc.2)

/-- `ToolDefinition.toSDKTool` (tools.go lines 180-224). -/
def toSDKTool (td : ToolDefinition) : SDKTool :=
  let built := td.parameters.foldl toSDKToolStep ([], [])
  { name := td.name
    description := td.description
    parameters := { type := "object", properties := some built.1, required := some built.2 }
    handler := fun arguments =>
      match arguments with
      | .map args =>
        match td.handler args with
        | .error e =>
          .ok { textResultForLLM := "error: " ++ e
                resultType := "error"
                sessionLog := "Tool " ++ td.name ++ " failed: " ++ e }
        | .ok result =>
          .ok { textResultForLLM := result
                resultType := "success"
                sessionLog := "Tool " ++ td.name ++ " executed successfully" }
      | _ => .error "unexpected arguments type" }

/-- Whether an SDK value is map-shaped (the Go type assertion
`invocation.Arguments.(map[string]any)` succeeds). -/
def isMapShaped : SDKValue → Bool
  | .map _ => true
  | _ => false

/-- Whether the bridge reported a transport-level error (Go: the wrapped
handler returned a non-nil `error`). -/
def isTransportError : Except String ToolResult → Bool
  | .error _ => true
  | .ok _ => false

/-! ## Lemmas about the streaming handler -/

/-- Running the streaming handler over a block of delta events appends
each delta to the channel and the concatenation to the accumulator. -/
theorem streamRun_deltas (ds : List String) (f : String) (out : List StreamEvent) :
    List.foldl queryStreamHandle ⟨f, out, false⟩ (ds.map deltaEvt)
      = ⟨f ++ concatStrings ds, out ++ ds.map mkDeltaEvent, false⟩ := by
  induction ds generalizing f out with
  | nil => simp [concatStrings]
  | cons d ds ih =>
    have hstep : queryStreamHandle ⟨f, out, false⟩ (deltaEvt d)
        = ⟨f ++ d, out ++ [mkDeltaEvent d], false⟩ := rfl
    simp only [List.map_cons, List.foldl_cons, hstep, ih]
    simp [concatStrings, String.append_assoc]

/-- C1: a delta event with non-empty delta content is forwarded
immediately as a delta `StreamEvent` and appended to the full-content
accumulator; a delta event with no delta content is silently dropped —
neither forwarded nor accumulated. -/
theorem deltaEvent_forwarding (s : StreamHandlerState) (e : SessionEvent) (d : String)
    (htype : e.type = .assistantMessageDelta) :
    (e.deltaContent = some d → d ≠ "" →
      queryStreamHandle s e
        = { s with fullContent := s.fullContent ++ d, out := s.out ++ [mkDeltaEvent d] }) ∧
    (e.deltaContent = none → queryStreamHandle s e = s) := by
  constructor
  · intro hd _
    simp [queryStreamHandle, htype, hd]
  · intro hd
    simp [queryStreamHandle, htype, hd]

theorem deltaEvent_forwarding_witness :
    (deltaEvt "Hel").type = .assistantMessageDelta ∧
    (deltaEvt "Hel").deltaContent = some "Hel" ∧ "Hel" ≠ "" ∧
    queryStreamHandle initialStreamState (deltaEvt "Hel")
      = { initialStreamState with
          fullContent := initialStreamState.fullContent ++ "Hel",
          out := initialStreamState.out ++ [mkDeltaEvent "Hel"] } :=
  ⟨rfl, rfl, by decide,
   (deltaEvent_forwarding initialStreamState (deltaEvt "Hel") "Hel" rfl).1 rfl (by decide)⟩

/-- C2: delta events D1..Dn followed by the terminal idle event produce
exactly the stream [D1, .., Dn, final] in emission order, the final event
last, carrying the concatenation of the delta contents; when a
full-content event was emitted, the accumulator is overwritten with that
authoritative value and subsequent deltas append after it. -/
theorem streamEvent_ordering (ds ds1 ds2 : List String) (c : String) :
    (queryStreamRun (ds.map deltaEvt ++ [idleEvt])).out
      = ds.map mkDeltaEvent ++ [mkFinalEvent (concatStrings ds)] ∧
    (queryStreamRun (ds1.map deltaEvt ++ [fullEvt c] ++ ds2.map deltaEvt ++ [idleEvt])).out
      = ds1.map mkDeltaEvent ++ ds2.map mkDeltaEvent
          ++ [mkFinalEvent (c ++ concatStrings ds2)] := by
  constructor
  · rw [queryStreamRun, List.foldl_append]
    rw [show initialStreamState = ⟨"", [], false⟩ from rfl, streamRun_deltas]
    simp [queryStreamHandle, idleEvt]
  · rw [queryStreamRun]
    rw [show ds1.map deltaEvt ++ [fullEvt c] ++ ds2.map deltaEvt ++ [idleEvt]
          = ds1.map deltaEvt ++ ([fullEvt c] ++ (ds2.map deltaEvt ++ [idleEvt]))
        from by simp]
    rw [List.foldl_append, show initialStreamState = ⟨"", [], false⟩ from rfl, streamRun_deltas]
    rw [List.foldl_append, List.foldl_append]
    rw [show List.foldl queryStreamHandle ⟨"" ++ concatStrings ds1, [] ++ ds1.map mkDeltaEvent,
          false⟩ [fullEvt c] = ⟨c, ds1.map mkDeltaEvent, false⟩ from by
      simp [queryStreamHandle, fullEvt]]
    rw [streamRun_deltas]
    simp [queryStreamHandle, idleEvt]

/-! ## Lemmas about the Start retry loop -/

/-- The geometric delay list for `k+1` sleeps at base `d`, split at the
first sleep. -/
theorem range_pow_shift (k d : Nat) :
    (List.range (k + 1)).map (fun i => d * 2 ^ i)
      = d :: (List.range k).map (fun i => d * 2 * 2 ^ i) := by
  rw [List.range_succ_eq_map, List.map_cons, List.map_map]
  refine congrArg₂ _ (by simp) (List.map_congr_left ?_)
  intro i _
  simp [Function.comp, pow_succ]
  ring

/-- Running the retry loop when the first `k` attempts fail (with the
context never completing during those waits) and attempt `k` succeeds:
the loop returns success after `k+1` attempts, having slept the doubling
delays `delay, 2*delay, ..., 2^(k-1)*delay`. -/
theorem startLoop_success (att : Nat → Option String) (ctxDone : Nat → Bool) :
    ∀ (k remaining attempt delay : Nat) (lastErr : Option String) (sleeps : List Nat),
      k < remaining →
      att (attempt + k) = none →
      (∀ i, i < k → (att (attempt + i)).isSome ∧ ctxDone (attempt + i) = false) →
      startLoop att ctxDone remaining attempt delay lastErr sleeps
        = { connected := true, result := .ok, attemptsMade := attempt + k + 1,
            sleeps := sleeps ++ (List.range k).map (fun i => delay * 2 ^ i) } := by
  intro k
  induction k with
  | zero =>
    intro remaining attempt delay lastErr sleeps hk hsucc _
    obtain ⟨r, rfl⟩ : ∃ r, remaining = r + 1 := ⟨remaining - 1, by omega⟩
    rw [Nat.add_zero] at hsucc
    simp [startLoop, hsucc]
  | succ k ih =>
    intro remaining attempt delay lastErr sleeps hk hsucc hfail
    obtain ⟨r, rfl⟩ : ∃ r, remaining = r + 1 := ⟨remaining - 1, by omega⟩
    obtain ⟨e, he⟩ := Option.isSome_iff_exists.mp (hfail 0 (Nat.succ_pos k)).1
    rw [Nat.add_zero] at he
    have hctx : ctxDone attempt = false := by
      have h := (hfail 0 (Nat.succ_pos k)).2
      rwa [Nat.add_zero] at h
    have hr : ¬(r = 0) := by omega
    have ihh := ih r (attempt + 1) (delay * 2) (some e) (sleeps ++ [delay]) (by omega)
      (by rw [show attempt + 1 + k = attempt + (k + 1) from by omega]; exact hsucc)
      (fun i hi => by
        have h := hfail (i + 1) (by omega)
        rwa [show attempt + 1 + i = attempt + (i + 1) from by omega])
    rw [startLoop, he]
    simp only [hr, if_false, hctx, Bool.false_eq_true, ihh]
    rw [range_pow_shift]
    simp [StartOutcome.mk.injEq]
    omega

/-- Running the retry loop when every attempt fails (with the context
never completing): the loop exhausts all `remaining` attempts, returns
`SidecarUnavailable` wrapping the last attempt's error, sleeps after
every failed attempt except the last, and doubles the delay each time. -/
theorem startLoop_exhaust (att : Nat → Option String) (ctxDone : Nat → Bool) :
    ∀ (remaining attempt delay : Nat) (lastErr : Option String) (sleeps : List Nat),
      0 < remaining →
      (∀ i, i < remaining → (att (attempt + i)).isSome ∧ ctxDone (attempt + i) = false) →
      startLoop att ctxDone remaining attempt delay lastErr sleeps
        = { connected := false,
            result := .sidecarUnavailable (.lastAttemptErr (att (attempt + remaining - 1))),
            attemptsMade := attempt + remaining,
            sleeps := sleeps ++ (List.range (remaining - 1)).map (fun i => delay * 2 ^ i) } := by
  intro remaining
  induction remaining with
  | zero => intro _ _ _ _ h; omega
  | succ r ih =>
    intro attempt delay lastErr sleeps _ hfail
    obtain ⟨e, he⟩ := Option.isSome_iff_exists.mp (hfail 0 (Nat.succ_pos r)).1
    rw [Nat.add_zero] at he
    rcases Nat.eq_zero_or_pos r with hr | hr
    · subst hr
      rw [startLoop, he]
      simp [he]
    · have hctx : ctxDone attempt = false := by
        have h := (hfail 0 (Nat.succ_pos r)).2
        rwa [Nat.add_zero] at h
      have hr0 : ¬(r = 0) := by omega
      have ihh := ih (attempt + 1) (delay * 2) (some e) (sleeps ++ [delay]) hr
        (fun i hi => by
          have h := hfail (i + 1) (by omega)
          rwa [show attempt + 1 + i = attempt + (i + 1) from by omega])
      rw [startLoop, he]
      simp only [hr0, if_false, hctx, Bool.false_eq_true, ihh]
      rw [show attempt + 1 + r - 1 = attempt + (r + 1) - 1 from by omega,
        show attempt + 1 + r = attempt + (r + 1) from by omega,
        show r + 1 - 1 = r from by omega]
      obtain ⟨r1, rfl⟩ : ∃ r1, r = r1 + 1 := ⟨r - 1, by omega⟩
      rw [range_pow_shift]
      simp

/-- Running the retry loop when attempts `0..k` fail, the context does
not complete during the waits after attempts `< k`, but completes during
the wait after attempt `k` (with more attempts still pending): the loop
returns `SidecarUnavailable` with the context's cancellation cause after
`k+1` attempts, without sleeping the interrupted delay. -/
theorem startLoop_ctx (att : Nat → Option String) (ctxDone : Nat → Bool) :
    ∀ (k remaining attempt delay : Nat) (lastErr : Option String) (sleeps : List Nat),
      k + 1 < remaining →
      (∀ i, i ≤ k → (att (attempt + i)).isSome) →
      (∀ i, i < k → ctxDone (attempt + i) = false) →
      ctxDone (attempt + k) = true →
      startLoop att ctxDone remaining attempt delay lastErr sleeps
        = { connected := false, result := .sidecarUnavailable .ctxCancelled,
            attemptsMade := attempt + k + 1,
            sleeps := sleeps ++ (List.range k).map (fun i => delay * 2 ^ i) } := by
  intro k
  induction k with
  | zero =>
    intro remaining attempt delay lastErr sleeps hk hfail _ hctx
    obtain ⟨r, rfl⟩ : ∃ r, remaining = r + 1 := ⟨remaining - 1, by omega⟩
    obtain ⟨e, he⟩ := Option.isSome_iff_exists.mp (hfail 0 (Nat.le_refl 0))
    rw [Nat.add_zero] at he
    rw [Nat.add_zero] at hctx
    have hr0 : ¬(r = 0) := by omega
    rw [startLoop, he]
    simp [hr0, hctx]
  | succ k ih =>
    intro remaining attempt delay lastErr sleeps hk hfail hbefore hctx
    obtain ⟨r, rfl⟩ : ∃ r, remaining = r + 1 := ⟨remaining - 1, by omega⟩
    obtain ⟨e, he⟩ := Option.isSome_iff_exists.mp (hfail 0 (Nat.zero_le _))
    rw [Nat.add_zero] at he
    have hctx0 : ctxDone attempt = false := by
      have h := hbefore 0 (Nat.succ_pos k)
      rwa [Nat.add_zero] at h
    have hr0 : ¬(r = 0) := by omega
    have ihh := ih r (attempt + 1) (delay * 2) (some e) (sleeps ++ [delay]) (by omega)
      (fun i hi => by
        have h := hfail (i + 1) (by omega)
        rwa [show attempt + 1 + i = attempt + (i + 1) from by omega])
      (fun i hi => by
        have h := hbefore (i + 1) (by omega)
        rwa [show attempt + 1 + i = attempt + (i + 1) from by omega])
      (by
        have h := hctx
        rwa [show attempt + (k + 1) = attempt + 1 + k from by omega] at h)
    rw [startLoop, he]
    simp only [hr0, if_false, hctx0, Bool.false_eq_true, ihh]
    rw [range_pow_shift]
    simp [StartOutcome.mk.injEq]
    omega

/-- C3: `Start` fails with `AlreadyConnected` when already connected;
otherwise it tries up to `retryAttempts` times with delays starting at
the base and doubling after every failed attempt except the last (no
sleep after the final attempt); the first success marks the client
connected and returns success; exhaustion returns `SidecarUnavailable`
wrapping the last underlying error with connected still false. -/
theorem Start_retry (n d k : Nat) (att : Nat → Option String) (ctxDone : Nat → Bool) :
    (Start true n d att ctxDone
      = { connected := true, result := .alreadyConnected, attemptsMade := 0, sleeps := [] }) ∧
    (k < n → att k = none → (∀ i, i < k → (att i).isSome ∧ ctxDone i = false) →
      Start false n d att ctxDone
        = { connected := true, result := .ok, attemptsMade := k + 1,
            sleeps := (List.range k).map (fun i => d * 2 ^ i) }) ∧
    (0 < n → (∀ i, i < n → (att i).isSome ∧ ctxDone i = false) →
      Start false n d att ctxDone
        = { connected := false,
            result := .sidecarUnavailable (.lastAttemptErr (att (n - 1))),
            attemptsMade := n,
            sleeps := (List.range (n - 1)).map (fun i => d * 2 ^ i) }) := by
  refine ⟨rfl, ?_, ?_⟩
  · intro hk hsucc hfail
    rw [Start, if_neg Bool.false_ne_true]
    have h := startLoop_success att ctxDone k n 0 d none [] hk
      (by rwa [Nat.zero_add]) (fun i hi => by rw [Nat.zero_add]; exact hfail i hi)
    simpa using h
  · intro hn hfail
    rw [Start, if_neg Bool.false_ne_true]
    have h := startLoop_exhaust att ctxDone n 0 d none [] hn
      (fun i hi => by rw [Nat.zero_add]; exact hfail i hi)
    simpa using h

/-- A connection oracle whose first two attempts fail and third succeeds. -/
def attSucceedThird : Nat → Option String :=
  fun i => if i < 2 then some "dial error" else none

/-- A connection oracle that always fails. -/
def attAlwaysFail : Nat → Option String :=
  fun _ => some "dial error"

/-- A context that never completes during a wait. -/
def ctxNeverDone : Nat → Bool := fun _ => false

/-- A context that completes during the wait after attempt 1. -/
def ctxDoneAtOne : Nat → Bool := fun i => i == 1

theorem Start_retry_witness :
    ((2 : Nat) < 3 ∧ attSucceedThird 2 = none ∧
      (∀ i, i < 2 → (attSucceedThird i).isSome ∧ ctxNeverDone i = false) ∧
      Start false 3 5 attSucceedThird ctxNeverDone
        = { connected := true, result := .ok, attemptsMade := 3, sleeps := [5, 10] }) ∧
    ((0 : Nat) < 3 ∧ (∀ i, i < 3 → (attAlwaysFail i).isSome ∧ ctxNeverDone i = false) ∧
      Start false 3 5 attAlwaysFail ctxNeverDone
        = { connected := false,
            result := .sidecarUnavailable (.lastAttemptErr (some "dial error")),
            attemptsMade := 3, sleeps := [5, 10] }) :=
  ⟨⟨by decide, by decide, by decide,
    ((Start_retry 3 5 2 attSucceedThird ctxNeverDone).2.1 (by decide) (by decide)
      (by decide)).trans (by decide)⟩,
   ⟨by decide, by decide,
    ((Start_retry 3 5 0 attAlwaysFail ctxNeverDone).2.2 (by decide)
      (by decide)).trans (by decide)⟩⟩

/-- C4: when the caller's context completes during an inter-attempt
wait, `Start` returns immediately with `SidecarUnavailable` wrapping the
context's cancellation cause, abandons the remaining attempts, and
leaves connected false. -/
theorem Start_ctxCancelled (n d k : Nat) (att : Nat → Option String) (ctxDone : Nat → Bool)
    (hk : k + 1 < n)
    (hfail : ∀ i, i ≤ k → (att i).isSome)
    (hbefore : ∀ i, i < k → ctxDone i = false)
    (hctx : ctxDone k = true) :
    Start false n d att ctxDone
      = { connected := false, result := .sidecarUnavailable .ctxCancelled,
          attemptsMade := k + 1,
          sleeps := (List.range k).map (fun i => d * 2 ^ i) } := by
  rw [Start, if_neg Bool.false_ne_true]
  have h := startLoop_ctx att ctxDone k n 0 d none [] hk
    (fun i hi => by rw [Nat.zero_add]; exact hfail i hi)
    (fun i hi => by rw [Nat.zero_add]; exact hbefore i hi)
    (by rwa [Nat.zero_add])
  simpa using h

theorem Start_ctxCancelled_witness :
    (1 : Nat) + 1 < 4 ∧ (∀ i, i ≤ 1 → (attAlwaysFail i).isSome) ∧
    (∀ i, i < 1 → ctxDoneAtOne i = false) ∧ ctxDoneAtOne 1 = true ∧
    Start false 4 5 attAlwaysFail ctxDoneAtOne
      = { connected := false, result := .sidecarUnavailable .ctxCancelled,
          attemptsMade := 2, sleeps := [5] } :=
  ⟨by decide, by decide, by decide, by decide,
   (Start_ctxCancelled 4 5 1 attAlwaysFail ctxDoneAtOne (by decide) (by decide)
     (by decide) (by decide)).trans (by decide)⟩

/-! ## Query engine theorems -/

/-- C5: when a single-result query's context is cancelled mid-flight
(after a successful send, before a terminal event), the engine issues an
abort call to the session and returns the context's cancellation error;
no result is returned and the accumulated partial content is discarded. -/
theorem query_cancellation (env : QueryEnv) (sessionID prompt sid : String)
    (hp : prompt ≠ "") (hc : env.connected = true)
    (hsetup : env.sessionSetup = .ok sid) (hsend : env.sendErr = none)
    (hrace : env.race = .ctxCancelled) :
    QueryWithSession env sessionID prompt
      = (.errCtxCancelled,
         [(if sessionID = "" then RemoteCall.createSession else RemoteCall.resumeSession),
          .send, .abort]) ∧
    RemoteCall.abort ∈ (QueryWithSession env sessionID prompt).2 ∧
    ∀ c s, (QueryWithSession env sessionID prompt).1 ≠ .ok c s := by
  have h : QueryWithSession env sessionID prompt
      = (.errCtxCancelled,
         [(if sessionID = "" then RemoteCall.createSession else RemoteCall.resumeSession),
          .send, .abort]) := by
    simp [QueryWithSession, hp, hc, hsetup, hsend, hrace]
  refine ⟨h, ?_, ?_⟩
  · rw [h]; simp
  · intro c s; rw [h]; simp

/-- A mid-flight-cancelled query environment on a connected client. -/
def cancelledEnv : QueryEnv :=
  { connected := true, sessionSetup := .ok "sess-1", sendErr := none, race := .ctxCancelled }

theorem query_cancellation_witness :
    "hi" ≠ "" ∧ cancelledEnv.connected = true ∧
    cancelledEnv.sessionSetup = .ok "sess-1" ∧ cancelledEnv.sendErr = none ∧
    cancelledEnv.race = .ctxCancelled ∧
    QueryWithSession cancelledEnv "" "hi"
      = (.errCtxCancelled, [.createSession, .send, .abort]) :=
  ⟨by decide, rfl, rfl, rfl, rfl,
   ((query_cancellation cancelledEnv "" "hi" "sess-1" (by decide) rfl rfl rfl rfl).1).trans
     (by decide)⟩

/-- C7: `Stop` is idempotent — not connected: success with no side
effect; connected: the flag is cleared unconditionally even when the
close reports an error (which is still returned); and two consecutive
calls (close reporting no error) produce no error and leave connected
false both times. -/
theorem Stop_idempotent (c : Bool) (e e2 : Option String) :
    Stop false e = (false, none) ∧
    Stop true e = (false, e) ∧
    Stop c none = (false, none) ∧
    Stop (Stop c none).1 e2 = (false, none) := by
  cases c <;> simp [Stop]

/-- C8: an empty prompt makes both query forms fail with `EmptyPrompt`
before any remote call, in every environment; a non-empty prompt on a
disconnected client makes both fail with `NotConnected` before any
remote call. -/
theorem query_preconditions (qenv1 qenv2 : QueryEnv) (senv1 senv2 : StreamEnv)
    (sessionID prompt : String) (hp : prompt ≠ "")
    (hq : qenv2.connected = false) (hs : senv2.connected = false) :
    QueryWithSession qenv1 sessionID "" = (.errEmptyPrompt, []) ∧
    QueryStream senv1 sessionID "" = (.errEmptyPrompt, []) ∧
    QueryWithSession qenv2 sessionID prompt = (.errNotConnected, []) ∧
    QueryStream senv2 sessionID prompt = (.errNotConnected, []) := by
  refine ⟨by simp [QueryWithSession], by simp [QueryStream], ?_, ?_⟩
  · simp [QueryWithSession, hp, hq]
  · simp [QueryStream, hp, hs]

/-- A disconnected query environment. -/
def disconnectedQueryEnv : QueryEnv :=
  { connected := false, sessionSetup := .ok "sess-1", sendErr := none,
    race := .terminal [] }

/-- A disconnected stream environment. -/
def disconnectedStreamEnv : StreamEnv :=
  { connected := false, sessionSetup := .ok "sess-1", sendErr := none }

theorem query_preconditions_witness :
    "hi" ≠ "" ∧ disconnectedQueryEnv.connected = false ∧
    disconnectedStreamEnv.connected = false ∧
    QueryWithSession disconnectedQueryEnv "" "" = (.errEmptyPrompt, []) ∧
    QueryStream disconnectedStreamEnv "" "" = (.errEmptyPrompt, []) ∧
    QueryWithSession disconnectedQueryEnv "" "hi" = (.errNotConnected, []) ∧
    QueryStream disconnectedStreamEnv "" "hi" = (.errNotConnected, []) := by
  have h := query_preconditions disconnectedQueryEnv disconnectedQueryEnv
    disconnectedStreamEnv disconnectedStreamEnv "" "hi" (by decide) rfl rfl
  exact ⟨by decide, rfl, rfl, h.1, h.2.1, h.2.2.1, h.2.2.2⟩

/-- C10: the empty-prompt check precedes the connectivity check — an
empty prompt on a disconnected client yields `EmptyPrompt`, not
`NotConnected`, in both query forms. -/
theorem emptyPrompt_precedes_notConnected (qenv : QueryEnv) (senv : StreamEnv)
    (sessionID : String) (hq : qenv.connected = false) (hs : senv.connected = false) :
    (QueryWithSession qenv sessionID "").1 = .errEmptyPrompt ∧
    (QueryWithSession qenv sessionID "").1 ≠ .errNotConnected ∧
    (QueryStream senv sessionID "").1 = .errEmptyPrompt ∧
    (QueryStream senv sessionID "").1 ≠ .errNotConnected := by
  refine ⟨by simp [QueryWithSession], by simp [QueryWithSession], by simp [QueryStream],
    by simp [QueryStream]⟩

theorem emptyPrompt_precedes_notConnected_witness :
    disconnectedQueryEnv.connected = false ∧ disconnectedStreamEnv.connected = false ∧
    (QueryWithSession disconnectedQueryEnv "" "").1 = .errEmptyPrompt ∧
    (QueryWithSession disconnectedQueryEnv "" "").1 ≠ .errNotConnected ∧
    (QueryStream disconnectedStreamEnv "" "").1 = .errEmptyPrompt ∧
    (QueryStream disconnectedStreamEnv "" "").1 ≠ .errNotConnected := by
  have h := emptyPrompt_precedes_notConnected disconnectedQueryEnv disconnectedStreamEnv
    "" rfl rfl
  exact ⟨rfl, rfl, h.1, h.2.1, h.2.2.1, h.2.2.2⟩

/-! ## Tool bridge theorems -/

/-- C6: the bridged handler returns a transport-level error exactly when
the arguments are not map-shaped; a failing caller handler yields a
transport success whose payload text is "error: <message>" (with an
audit log naming the failure); a succeeding handler yields the handler's
result text plus an audit-log string. -/
theorem toolBridge_invoke (td : ToolDefinition) (v : SDKValue)
    (args : List (String × SDKValue)) (e r : String) :
    (isTransportError ((toSDKTool td).handler v) = !isMapShaped v) ∧
    (td.handler args = .error e →
      (toSDKTool td).handler (.map args)
        = .ok { textResultForLLM := "error: " ++ e, resultType := "error",
                sessionLog := "Tool " ++ td.name ++ " failed: " ++ e }) ∧
    (td.handler args = .ok r →
      (toSDKTool td).handler (.map args)
        = .ok { textResultForLLM := r, resultType := "success",
                sessionLog := "Tool " ++ td.name ++ " executed successfully" }) := by
  refine ⟨?_, ?_, ?_⟩
  · cases v with
    | map m =>
      cases h : td.handler m <;> simp [toSDKTool, isTransportError, isMapShaped, h]
    | str s => rfl
    | num n => rfl
    | bool b => rfl
    | null => rfl
  · intro h
    simp [toSDKTool, h]
  · intro h
    simp [toSDKTool, h]

/-- A tool whose handler always fails with message "boom". -/
def tdFail : ToolDefinition :=
  { name := "t", description := "d", parameters := [],
    handler := fun _ => .error "boom" }

/-- A tool whose handler always succeeds with result "ok". -/
def tdOk : ToolDefinition :=
  { name := "t", description := "d", parameters := [],
    handler := fun _ => .ok "ok" }

theorem toolBridge_invoke_witness :
    tdFail.handler [] = .error "boom" ∧
    (toSDKTool tdFail).handler (.map [])
      = .ok { textResultForLLM := "error: boom", resultType := "error",
              sessionLog := "Tool t failed: boom" } ∧
    tdOk.handler [] = .ok "ok" ∧
    (toSDKTool tdOk).handler (.map [])
      = .ok { textResultForLLM := "ok", resultType := "success",
              sessionLog := "Tool t executed successfully" } ∧
    isTransportError ((toSDKTool tdFail).handler .null) = !isMapShaped SDKValue.null := by
  refine ⟨rfl, ?_, rfl, ?_, (toolBridge_invoke tdFail .null [] "boom" "ok").1⟩
  · exact ((toolBridge_invoke tdFail (.map []) [] "boom" "ok").2.1 rfl).trans (by rfl)
  · exact ((toolBridge_invoke tdOk (.map []) [] "boom" "ok").2.2 rfl).trans (by rfl)

/-- The required-names accumulator of the parameter loop collects, in
parameter order, exactly the names of the parameters marked required. -/
theorem toSDKToolStep_required (ps : List ToolParameter)
    (m : List (String × ParamSchema)) (r : List String) :
    (ps.foldl toSDKToolStep (m, r)).2
      = r ++ (ps.filter (fun p => p.required)).map (fun p => p.name) := by
  induction ps generalizing m r with
  | nil => simp
  | cons p ps ih =>
    rw [List.foldl_cons, List.filter_cons]
    cases hreq : p.required <;>
      simp [toSDKToolStep, hreq, ih]

/-- C9: the schema conversion produces an object-typed descriptor whose
required list is exactly the names of the required parameters in
parameter order, and a tool with no parameters yields an empty, non-nil
properties map and an empty, non-nil required list. -/
theorem toSDKTool_schema (td : ToolDefinition) :
    (toSDKTool td).parameters.type = "object" ∧
    (toSDKTool td).parameters.required
      = some ((td.parameters.filter (fun p => p.required)).map (fun p => p.name)) ∧
    (td.parameters = [] →
      (toSDKTool td).parameters
        = { type := "object", properties := some [], required := some [] }) := by
  refine ⟨rfl, ?_, ?_⟩
  · show some (td.parameters.foldl toSDKToolStep ([], [])).2 = _
    rw [toSDKToolStep_required]
    simp
  · intro h
    simp [toSDKTool, h]

theorem toSDKTool_schema_witness :
    tdOk.parameters = [] ∧
    (toSDKTool tdOk).parameters
      = { type := "object", properties := some [], required := some [] } :=
  ⟨rfl, (toSDKTool_schema tdOk).2.2 rfl⟩

end Copilotcli
